import Mathlib

/-!
Verification of the esp-sensor firmware core against its specification.

The development shallowly embeds the line-protocol typestate builder
(src/line_proto/mod.rs), the HTTP response classification
(src/main.rs handle_response and src/influx/mod.rs Client::write),
the producer-side reading validation (src/main.rs SensorData::is_correct
and read_sensor), and the delivery loop structure (src/main.rs
data_sender / data_sender_inner).

Modelling conventions:
 - Rust text (&str) is modelled as List Char; the byte sink W (an
   in-memory buffer that the builder writes into) is modelled by explicit
   state passing: each builder operation takes the sink contents and
   returns the new sink contents. The in-memory sink never fails, so the
   Write and Fmt error cases of the source error enum are never produced
   by the model, but they are kept in the error type for shape fidelity.
 - f32 field values are written by the sink native Display formatting
   (an external collaborator, core fmt); the model takes the rendered
   decimal text of the value, e.g. "55.5" for 55.5f32.
 - f32 sensor values are modelled as rationals: the producer validation
   only compares against the exactly-representable constants -40.0, 80.0,
   0.0 and 100.0, so the order structure is all that matters.
-/

/-- Rust &str, as a list of characters. -/
abbrev Str : Type := List Char

/-- The byte sink the builder writes into (all bytes written are ASCII). -/
abbrev Sink : Type := List Char

/-- Error enum of src/line_proto/mod.rs. Write and Fmt wrap sink errors;
the in-memory sink of this model cannot fail, so they are never produced. -/
inductive LineError : Type
  | Write
  | Fmt
  | StartWithUnderScore
  | ContainsNewLine
  | ContainsQuotes
deriving DecidableEq, Repr

/-- Rust s.starts_with(underscore char): true iff the first character is _ . -/
def starts_with_underscore : Str → Bool
  | [] => false
  | c :: _ => c == '_'

/-- validate_str of src/line_proto/mod.rs lines 150-162: rules checked in
source order (leading underscore, then newline, then double quote). -/
def validate_str (s : Str) : Except LineError Unit :=
  if starts_with_underscore s then .error .StartWithUnderScore
  else if s.contains '\n' then .error .ContainsNewLine
  else if s.contains '"' then .error .ContainsQuotes
  else .ok ()

/-- The typestate phantom states of the builder (module state in the source). -/
inductive BState : Type
  | Measurement
  | Tag
  | Field
  | Timestamp

/-- LineBuilder of src/line_proto/mod.rs: the sink W is passed explicitly
by each operation, so the struct keeps only the needs_comma flag; the
STATE parameter is the typestate phantom. -/
structure LineBuilder (st : BState) : Type where
  needs_comma : Bool
deriving DecidableEq, Repr

/-- new: starts a builder in the Measurement state with needs_comma false. -/
def new : LineBuilder .Measurement := ⟨false⟩

/-- measurement (lines 68-79): validate the name, then write it verbatim,
then transition to the Tag state with needs_comma true. On a validation
error nothing is written. -/
def measurement (_b : LineBuilder .Measurement) (m : Str) (w : Sink) :
    Sink × Except LineError (LineBuilder .Tag) :=
  match validate_str m with
  | .error e => (w, .error e)
  | .ok _ => (w ++ m, .ok ⟨true⟩)

/-- tag (lines 87-94): validate name and value, write ",name=value",
set needs_comma to false, stay in the Tag state. -/
def tag (_b : LineBuilder .Tag) (name value : Str) (w : Sink) :
    Sink × Except LineError (LineBuilder .Tag) :=
  match validate_str name with
  | .error e => (w, .error e)
  | .ok _ =>
    match validate_str value with
    | .error e => (w, .error e)
    | .ok _ => (w ++ ',' :: (name ++ '=' :: value), .ok ⟨false⟩)

/-- next on the Tag state (lines 96-106), called end_tags in the spec:
writes "," when needs_comma is set, then writes " ", and transitions to
the Field state with needs_comma false. -/
def end_tags (b : LineBuilder .Tag) (w : Sink) :
    Sink × Except LineError (LineBuilder .Field) :=
  let w := if b.needs_comma then w ++ [','] else w
  (w ++ [' '], .ok ⟨false⟩)

/-- field (lines 113-121): validate the key, write "," when needs_comma is
set, write "key=value" where value is the Display rendering of the f32,
set needs_comma to true. -/
def field (b : LineBuilder .Field) (name value : Str) (w : Sink) :
    Sink × Except LineError (LineBuilder .Field) :=
  match validate_str name with
  | .error e => (w, .error e)
  | .ok _ =>
    let w := if b.needs_comma then w ++ [','] else w
    (w ++ (name ++ '=' :: value), .ok ⟨true⟩)

/-- next on the Field state (lines 123-130), called end_fields in the spec:
transitions to the Timestamp state writing nothing to the sink. -/
def end_fields (_b : LineBuilder .Field) (w : Sink) :
    Sink × LineBuilder .Timestamp :=
  (w, ⟨false⟩)

/-- build (lines 143-147): writes the terminating newline and flushes. -/
def build (_b : LineBuilder .Timestamp) (w : Sink) :
    Sink × Except LineError Unit :=
  (w ++ ['\n'], .ok ())

/-- ts (lines 137-141): writes " {ns}" (a space then the decimal digits of
the u64), then build. -/
def ts (b : LineBuilder .Timestamp) (ns : Nat) (w : Sink) :
    Sink × Except LineError Unit :=
  build b (w ++ ' ' :: (Nat.repr ns).data)

/-- Sequencing of fallible builder steps threading the sink, mirroring the
Rust question-mark operator: an error aborts with the sink as is. -/
def andThen {α β : Type} (r : Sink × Except LineError α)
    (f : α → Sink → Sink × Except LineError β) : Sink × Except LineError β :=
  match r with
  | (w, .error e) => (w, .error e)
  | (w, .ok a) => f a w

/-- The zero-tag call sequence of the spec round-trip property:
measurement "dht22", end_tags, field "humidity" 55.5,
field "temperature" 21.3, end_fields, finish. -/
def c1_run : Sink × Except LineError Unit :=
  andThen (measurement new "dht22".data []) fun b w =>
  andThen (end_tags b w) fun b w =>
  andThen (field b "humidity".data "55.5".data w) fun b w =>
  andThen (field b "temperature".data "21.3".data w) fun b w =>
  let (w, b) := end_fields b w
  build b w

/-- The timestamp call sequence: measurement "dht22", end_tags,
field "humidity" 55.5, end_fields, ts 1000. -/
def c4_run : Sink × Except LineError Unit :=
  andThen (measurement new "dht22".data []) fun b w =>
  andThen (end_tags b w) fun b w =>
  andThen (field b "humidity".data "55.5".data w) fun b w =>
  let (w, b) := end_fields b w
  ts b 1000 w

deriving instance DecidableEq for Except

/-- SensorData of src/main.rs lines 267-271; the two f32 readings are
modelled as rationals (only order comparisons against exactly
representable constants occur). -/
structure SensorData : Type where
  temperature : ℚ
  humidity : ℚ
deriving DecidableEq, Repr

/-- SensorData is_correct from src/main.rs lines 274-279. -/
def SensorData.is_correct (d : SensorData) : Bool :=
  let humidity_correct := decide (d.humidity > 0) && decide (d.humidity < 100)
  let temperature_correct := decide (d.temperature ≥ -40) && decide (d.temperature ≤ 80)
  humidity_correct && temperature_correct

/-- One iteration of the read_sensor loop body after a successful sensor
read (src/main.rs lines 210-216): broadcast the value when is_correct,
otherwise only log (publish nothing). The result is the value published
to the bus, if any. -/
def read_sensor_step (d : SensorData) : Option SensorData :=
  if d.is_correct then some d else none

/-- handle_response of src/main.rs lines 118-131, reduced to its decision
content: the first component is whether the status is classified a
success (the (200..300).contains(&status) test); the second is whether
the response body is read (read_body is called unconditionally). -/
def handle_response (status : Nat) : Bool × Bool :=
  (decide (200 ≤ status) && decide (status < 300), true)

/-- Error enum of src/influx/mod.rs (payloads of the external error types
omitted). -/
inductive InfluxError : Type
  | Reqwless
  | Utf8
  | Api
deriving DecidableEq, Repr

/-- The response handling of Client::write in src/influx/mod.rs lines
57-65: Status Ok, Created and Accepted (codes 200, 201, 202) are success
and the body is not read; any other status reads the body for the error
log and returns Error Api. First component is the write result, second is
whether the response body was read. -/
def influx_handle_status (status : Nat) : Except InfluxError Unit × Bool :=
  match status with
  | 200 => (.ok (), false)
  | 201 => (.ok (), false)
  | 202 => (.ok (), false)
  | _ => (.error .Api, true)

/-- Outcome of the transport write for one reading taken off the
subscription by the delivery loop. -/
inductive WriteOutcome : Type
  | ok
  | transportErr
deriving DecidableEq, Repr

/-- data_sender_inner of src/main.rs lines 88-116, as a trace function:
the subscription is a list of readings paired with the transport outcome
of their write. The loop for data in sub.iter() attempts each reading in
order; a transport error in do_request propagates out of the inner
function (the reading was still attempted), leaving the rest of the
subscription unread; a drained subscription bails. Returns the attempted
readings and the remaining subscription. -/
def data_sender_inner :
    List (SensorData × WriteOutcome) →
      List SensorData × List (SensorData × WriteOutcome)
  | [] => ([], [])
  | (d, .ok) :: rest =>
    (d :: (data_sender_inner rest).1, (data_sender_inner rest).2)
  | (d, .transportErr) :: rest => ([d], rest)

/-- data_sender of src/main.rs lines 73-86, run for a given number of
outer-loop iterations: each iteration calls data_sender_inner; an inner
error is logged and swallowed, the loop sleeps and unconditionally starts
the next iteration on the remaining subscription. Returns all readings
attempted. -/
def data_sender : Nat → List (SensorData × WriteOutcome) → List SensorData
  | 0, _ => []
  | fuel + 1, sub =>
    (data_sender_inner sub).1 ++ data_sender fuel (data_sender_inner sub).2

/-! ## Helper lemmas -/

/-- Characterization of validate_str by the first character and character
membership, in the source check order. -/
lemma validate_str_eq (s : Str) :
    validate_str s =
      if s.head? = some '_' then .error .StartWithUnderScore
      else if '\n' ∈ s then .error .ContainsNewLine
      else if '"' ∈ s then .error .ContainsQuotes
      else .ok () := by
  have hu : starts_with_underscore s = decide (s.head? = some '_') := by
    cases s with
    | nil => simp [starts_with_underscore]
    | cons c t =>
      by_cases h : c = '_' <;> simp [starts_with_underscore, h]
  simp only [validate_str, hu, List.contains, List.elem_eq_mem, decide_eq_true_eq]

/-- A string passing all three validation rules validates successfully. -/
lemma validate_str_ok (s : Str) (h1 : s.head? ≠ some '_') (h2 : '\n' ∉ s)
    (h3 : '"' ∉ s) : validate_str s = .ok () := by
  rw [validate_str_eq]
  simp [h1, h2, h3]

/-- The readings attempted by one inner run, followed by the readings of
the remaining subscription, are exactly the readings of the input
subscription. -/
lemma data_sender_inner_fst_append (sub : List (SensorData × WriteOutcome)) :
    (data_sender_inner sub).1 ++ ((data_sender_inner sub).2).map Prod.fst
      = sub.map Prod.fst := by
  induction sub with
  | nil => simp [data_sender_inner]
  | cons hd tl ih =>
    obtain ⟨d, o⟩ := hd
    cases o with
    | ok => simpa [data_sender_inner] using ih
    | transportErr => simp [data_sender_inner]

/-- Each inner run on a nonempty subscription consumes at least one entry. -/
lemma data_sender_inner_length (sub : List (SensorData × WriteOutcome))
    (h : sub ≠ []) : ((data_sender_inner sub).2).length < sub.length := by
  induction sub with
  | nil => exact absurd rfl h
  | cons hd tl ih =>
    obtain ⟨d, o⟩ := hd
    cases o with
    | ok =>
      cases tl with
      | nil => simp [data_sender_inner]
      | cons hd2 tl2 =>
        have h2 := ih (by simp)
        simp only [data_sender_inner]
        simp only [List.length_cons] at h2 ⊢
        omega
    | transportErr => simp [data_sender_inner]

/-- is_correct holds exactly on the specified closed temperature range and
open humidity range. -/
lemma is_correct_iff (d : SensorData) :
    d.is_correct = true ↔
      (-40 ≤ d.temperature ∧ d.temperature ≤ 80 ∧
        0 < d.humidity ∧ d.humidity < 100) := by
  simp only [SensorData.is_correct, Bool.and_eq_true, decide_eq_true_eq, ge_iff_le,
    gt_iff_lt]
  tauto

/-- Case analysis of the influx status match as an if on the three
success codes. -/
lemma influx_handle_status_eq (s : Nat) :
    influx_handle_status s =
      if s = 200 ∨ s = 201 ∨ s = 202 then (.ok (), false)
      else (.error .Api, true) := by
  unfold influx_handle_status
  split <;> simp_all

/-! ## Claim theorems -/

/-- C3: validate_str returns StartsWithUnderscore when the string starts
with an underscore; otherwise ContainsNewline when it contains a newline;
otherwise ContainsQuotes when it contains a double quote; otherwise
success — checked in exactly that order, so the first violated rule wins. -/
theorem validate_str_checks_in_order (s : Str) :
    validate_str s =
      if s.head? = some '_' then .error .StartWithUnderScore
      else if '\n' ∈ s then .error .ContainsNewLine
      else if '"' ∈ s then .error .ContainsQuotes
      else .ok () :=
  validate_str_eq s

/-- C6: measurement on the identifier "_bad" returns the
StartWithUnderScore validation error and leaves the sink unchanged, for
every builder and every initial sink content. -/
theorem measurement_underscore_rejected :
    ∀ (b : LineBuilder .Measurement) (w : Sink),
      measurement b "_bad".data w = (w, .error .StartWithUnderScore) := by
  intro b w
  rfl

/-- C10: the empty string passes validation, and measurement on the empty
string succeeds, appends no bytes to the sink, and transitions to the Tag
state (with needs_comma set, as the source does). -/
theorem measurement_empty_string_ok :
    validate_str "".data = .ok () ∧
    ∀ (b : LineBuilder .Measurement) (w : Sink),
      measurement b "".data w = (w, .ok ⟨true⟩) := by
  refine ⟨rfl, fun b w => ?_⟩
  show (w ++ [], Except.ok (⟨true⟩ : LineBuilder .Tag)) = (w, .ok ⟨true⟩)
  simp

/-- C9: any string whose first character is not an underscore and which
contains neither a newline nor a double quote passes validation — even
when it contains commas, equals signs or spaces — and tag and field write
it into the record verbatim, with no escaping. -/
theorem validated_strings_written_verbatim (name value : Str)
    (h1 : name.head? ≠ some '_') (h2 : '\n' ∉ name) (h3 : '"' ∉ name)
    (h4 : value.head? ≠ some '_') (h5 : '\n' ∉ value) (h6 : '"' ∉ value) :
    validate_str name = .ok () ∧ validate_str value = .ok () ∧
    (∀ (b : LineBuilder .Tag) (w : Sink),
      tag b name value w = (w ++ ',' :: (name ++ '=' :: value), .ok ⟨false⟩)) ∧
    (∀ (b : LineBuilder .Field) (fv : Str) (w : Sink),
      field b name fv w
        = ((if b.needs_comma then w ++ [','] else w) ++ (name ++ '=' :: fv),
            .ok ⟨true⟩)) := by
  have hn := validate_str_ok name h1 h2 h3
  have hv := validate_str_ok value h4 h5 h6
  refine ⟨hn, hv, fun b w => ?_, fun b fv w => ?_⟩
  · simp [tag, hn, hv]
  · simp [field, hn]

/-- C9 witness: a tag key containing a space and a tag value containing a
comma and an equals sign validate and are written verbatim. -/
theorem validated_strings_written_verbatim_witness :
    ("k ey".data.head? ≠ some '_') ∧ ('\n' ∉ "k ey".data) ∧
    ('"' ∉ "k ey".data) ∧ ("v,a=b".data.head? ≠ some '_') ∧
    ('\n' ∉ "v,a=b".data) ∧ ('"' ∉ "v,a=b".data) ∧
    (validate_str "k ey".data = .ok () ∧ validate_str "v,a=b".data = .ok () ∧
      (∀ (b : LineBuilder .Tag) (w : Sink),
        tag b "k ey".data "v,a=b".data w
          = (w ++ ',' :: ("k ey".data ++ '=' :: "v,a=b".data), .ok ⟨false⟩)) ∧
      (∀ (b : LineBuilder .Field) (fv : Str) (w : Sink),
        field b "k ey".data fv w
          = ((if b.needs_comma then w ++ [','] else w) ++ ("k ey".data ++ '=' :: fv),
              .ok ⟨true⟩))) :=
  ⟨by decide, by decide, by decide, by decide, by decide, by decide,
    validated_strings_written_verbatim "k ey".data "v,a=b".data
      (by decide) (by decide) (by decide) (by decide) (by decide) (by decide)⟩

/-- C7: one producer iteration publishes a reading to the bus exactly when
the temperature is within the closed interval [-40, 80] and the humidity
within the open interval (0, 100); readings outside are discarded. -/
theorem read_sensor_publishes_iff (d : SensorData) :
    (read_sensor_step d = some d ↔
      (-40 ≤ d.temperature ∧ d.temperature ≤ 80 ∧
        0 < d.humidity ∧ d.humidity < 100)) ∧
    (read_sensor_step d = none ↔
      ¬ (-40 ≤ d.temperature ∧ d.temperature ≤ 80 ∧
        0 < d.humidity ∧ d.humidity < 100)) := by
  have h := is_correct_iff d
  unfold read_sensor_step
  by_cases hc : d.is_correct
  · rw [if_pos hc]
    exact ⟨iff_of_true rfl (h.mp hc),
      iff_of_false (by simp) (not_not_intro (h.mp hc))⟩
  · rw [if_neg hc]
    have hr := fun hh => hc (h.mpr hh)
    exact ⟨iff_of_false (by simp) hr, iff_of_true rfl hr⟩

/-- C1: evaluating the zero-tag round trip on the code as written. The
actual bytes are "dht22, humidity=55.5,temperature=21.3\n" — end_tags
writes a comma and then the space, because needs_comma is still set after
measurement — and differ from the specified
"dht22 humidity=55.5,temperature=21.3\n". -/
theorem c1_zero_tags_actual_bytes :
    c1_run = ("dht22, humidity=55.5,temperature=21.3\n".data, .ok ()) ∧
    c1_run.1 ≠ "dht22 humidity=55.5,temperature=21.3\n".data := by
  constructor <;> decide

/-- C4 counterexample: end_fields writes nothing to the sink (here shown
at the concrete state the claimed sequence reaches), and the overall
bytes of the timestamp sequence differ from the claimed
"dht22 humidity=55.5 1000\n". -/
theorem c4_counterexample :
    (end_fields ⟨true⟩ "dht22, humidity=55.5".data).1
      = "dht22, humidity=55.5".data ∧
    c4_run.1 ≠ "dht22 humidity=55.5 1000\n".data := by
  constructor <;> decide

/-- C4 amended: end_fields writes nothing to the sink; the following ts
call writes a single space, then the decimal digits, then the newline, so
exactly one space precedes the timestamp digits; the full sequence on the
code as written yields "dht22, humidity=55.5 1000\n" (the comma after the
measurement comes from the zero-tags defect of end_tags). -/
theorem c4_amended_thm :
    (∀ (b : LineBuilder .Field) (w : Sink), (end_fields b w).1 = w) ∧
    (∀ (b : LineBuilder .Field) (w : Sink) (ns : Nat),
      (ts (end_fields b w).2 ns (end_fields b w).1).1
        = w ++ ' ' :: ((Nat.repr ns).data ++ ['\n'])) ∧
    c4_run = ("dht22, humidity=55.5 1000\n".data, .ok ()) := by
  refine ⟨fun b w => rfl, fun b w ns => ?_, by decide⟩
  simp [ts, build, end_fields]

/-- C5 counterexample: status 203 is not one of 200, 201, 202, yet the
handle_response path of the delivery loop classifies it a success. -/
theorem c5_counterexample :
    (handle_response 203).1 = true ∧ ¬ (203 = 200 ∨ 203 = 201 ∨ 203 = 202) := by
  constructor <;> decide

/-- C5 amended: in the influx client path a status is a success exactly
when it is 200, 201 or 202, and the response body is read exactly on
failure (diagnostics only); in the main delivery path a status is a
success exactly when it lies in 200..300, and the response body is always
read. -/
theorem c5_amended_thm :
    (∀ s : Nat, (influx_handle_status s).1 = .ok () ↔
      (s = 200 ∨ s = 201 ∨ s = 202)) ∧
    (∀ s : Nat, (influx_handle_status s).2 = true ↔
      ¬ (s = 200 ∨ s = 201 ∨ s = 202)) ∧
    (∀ s : Nat, (handle_response s).1 = true ↔ (200 ≤ s ∧ s < 300)) ∧
    (∀ s : Nat, (handle_response s).2 = true) := by
  refine ⟨fun s => ?_, fun s => ?_, fun s => ?_, fun s => rfl⟩
  · rw [influx_handle_status_eq]
    by_cases h : s = 200 ∨ s = 201 ∨ s = 202 <;> simp [h]
  · rw [influx_handle_status_eq]
    by_cases h : s = 200 ∨ s = 201 ∨ s = 202 <;> simp [h]
  · simp [handle_response]

/-- C8: with at least as many outer delivery-loop iterations as
subscription entries, every reading of the subscription is attempted, no
matter which writes fail at the transport: an inner failure is swallowed
by the outer loop, which re-enters the connect path and resumes on the
remaining subscription. -/
theorem data_sender_attempts_all :
    ∀ (fuel : Nat) (sub : List (SensorData × WriteOutcome)),
      sub.length ≤ fuel → data_sender fuel sub = sub.map Prod.fst := by
  intro fuel
  induction fuel with
  | zero =>
    intro sub h
    have : sub = [] := List.eq_nil_of_length_eq_zero (Nat.le_zero.mp h)
    subst this
    rfl
  | succ n ih =>
    intro sub h
    by_cases hs : sub = []
    · subst hs
      simp [data_sender, data_sender_inner, ih [] (by simp)]
    · have hlt := data_sender_inner_length sub hs
      have happ := data_sender_inner_fst_append sub
      simp only [data_sender]
      rw [ih ((data_sender_inner sub).2) (by omega)]
      exact happ

/-- C8 witness: a three-entry subscription whose middle write fails at the
transport still has all three readings attempted within three outer
iterations. -/
theorem data_sender_attempts_all_witness :
    (([(⟨21, 50⟩, .ok), (⟨22, 51⟩, .transportErr), (⟨23, 52⟩, .ok)] :
        List (SensorData × WriteOutcome)).length ≤ 3) ∧
    data_sender 3
        [(⟨21, 50⟩, .ok), (⟨22, 51⟩, .transportErr), (⟨23, 52⟩, .ok)]
      = [⟨21, 50⟩, ⟨22, 51⟩, ⟨23, 52⟩] :=
  ⟨by simp, data_sender_attempts_all 3
    ([(⟨21, 50⟩, .ok), (⟨22, 51⟩, .transportErr), (⟨23, 52⟩, .ok)] :
      List (SensorData × WriteOutcome)) (by simp)⟩

